import Mathlib

/-!
Verification of the selector-resolution and step-dispatch engine of the
`inference` deployments compiler.

The development shallowly embeds the Python sources:
  * `inference/enterprise/deployments/complier/steps_executors/utils.py`
    (`get_image`, `resolve_parameter`),
  * `inference/enterprise/deployments/complier/steps_executors/models.py`
    (`run_roboflow_model_step`, the request constructors and their dispatch
    table `MODEL_TYPE2REQUEST_CONSTRUCTOR`, `run_ocr_model_step`),
  * `inference/core/workflows/prototypes/block.py`
    (`WorkflowBlockManifest` dimensionality/batching defaults).

Python dictionaries become association lists, runtime exceptions become an
explicit `Err` sum returned through `Except`, and the asynchronous model
manager becomes an explicit oracle function together with a trace of the
calls issued to it.  Helper modules that the executors import but that are
not part of the analysed sources (`complier/utils.py` selector helpers,
`steps_executors/types.py`, the step entity classes) are modelled from the
specification; each such definition carries a doc comment saying so.
-/

namespace Inference

/-- A runtime value: Python scalars, strings, `None`, lists and dicts. -/
inductive Value where
  | none : Value
  | bool : Bool → Value
  | int : Int → Value
  | str : String → Value
  | list : List Value → Value
  | record : List (String × Value) → Value

/-- Runtime errors surfaced by the engine: Python `KeyError` on a dict,
a missing / duplicated step identifier in the outputs lookup, Python
`RuntimeError`, and Python `TypeError` (subscripting a non-dict). -/
inductive Err where
  | keyError (key : String) : Err
  | missingKey (step_selector : String) : Err
  | duplicateKey (step_selector : String) : Err
  | runtimeError (msg : String) : Err
  | typeError : Err

/-- First-match lookup in an association list, the model of Python dict
access (dict keys are unique, so first match is the match). -/
def lookupStr {α : Type} : List (String × α) → String → Option α
  | [], _ => none
  | (k, v) :: rest, key => if k = key then some v else lookupStr rest key

/-- Python `d[key]` on a dict value: `KeyError` when the key is absent,
`TypeError` when the subscripted value is not a dict. -/
def Value.getField (v : Value) (key : String) : Except Err Value :=
  match v with
  | .record fields =>
      match lookupStr fields key with
      | some x => .ok x
      | Option.none => .error (.keyError key)
  | _ => .error .typeError

/-- The list comprehension of `resolve_parameter` (utils.py, lines 51-54):
field access applied to every element in order, stopping at the first
failing element as Python evaluation does. -/
def mapGetField (field : String) : List Value → Except Err (List Value)
  | [] => .ok []
  | e :: rest => do
    let v ← Value.getField e field
    let vs ← mapGetField field rest
    .ok (v :: vs)

/-- Modelled from the spec: the prefix tagging a workflow-input reference
(`$inputs.`); the selector grammar module is not among the analysed sources. -/
def INPUTS_TAG : List Char := ['$', 'i', 'n', 'p', 'u', 't', 's', '.']

/-- Modelled from the spec: the prefix tagging a step-output reference
(`$steps.`); the selector grammar module is not among the analysed sources. -/
def STEPS_TAG : List Char := ['$', 's', 't', 'e', 'p', 's', '.']

/-- `charsStartWith s p` holds when the character list `p` is an initial
segment of `s`.  Used to implement the prefix convention of selectors. -/
def charsStartWith : List Char → List Char → Bool
  | _, [] => true
  | [], _ :: _ => false
  | c :: cs, p :: ps => if c = p then charsStartWith cs ps else false

/-- Modelled from the spec: a selector is a string value tagged by the `$`
prefix convention; any other value is a literal. -/
def is_selector : Value → Bool
  | .str s => charsStartWith s.data ['$']
  | _ => false

/-- Modelled from the spec: a workflow-input reference is a string carrying
the `$inputs.` prefix tag. -/
def is_input_selector : Value → Bool
  | .str s => charsStartWith s.data INPUTS_TAG
  | _ => false

/-- Modelled from the spec: a step-output reference is a string carrying the
`$steps.` prefix tag. -/
def is_step_output_selector : Value → Bool
  | .str s => charsStartWith s.data STEPS_TAG
  | _ => false

/-- Split a character list on `.` separators (the selector chunk structure). -/
def splitOnDot : List Char → List (List Char)
  | [] => [[]]
  | c :: rest =>
      match splitOnDot rest with
      | [] => [[]]
      | h :: t => if c = '.' then [] :: h :: t else (c :: h) :: t

/-- Rejoin selector chunks with `.` separators. -/
def joinDot : List (List Char) → List Char
  | [] => []
  | [c] => c
  | c :: rest => c ++ '.' :: joinDot rest

/-- Modelled from the spec: extract the last `.`-separated chunk of a
selector (the referenced input name or output field name). -/
def get_last_selector_chunk (selector : String) : String :=
  ⟨(splitOnDot selector.data).getLastD []⟩

/-- Modelled from the spec: from a step-output reference
`$steps.name.field`, recover the producing step's selector `$steps.name`. -/
def get_step_selector_from_its_output (step_output_selector : String) : String :=
  ⟨joinDot ((splitOnDot step_output_selector.data).take 2)⟩

/-- Modelled from the spec: the outputs-lookup key of the step called
`step_name` is the selector `$steps.step_name`. -/
def construct_step_selector (step_name : String) : String :=
  ⟨STEPS_TAG ++ step_name.data⟩

/-- The runtime inputs supplied by the caller: input name to value. -/
abbrev RuntimeParams : Type := List (String × Value)

/-- Modelled from the spec: the outputs lookup is a mapping from step
selector to that step's result (`steps_executors/types.py` is not among the
analysed sources). -/
abbrev OutputsLookup : Type := List (String × Value)

/-- Modelled from the spec: `read(step_id)`; `none` signals the
`MissingKeyError` of an absent key. -/
def OutputsLookup.read (lookup : OutputsLookup) (key : String) : Option Value :=
  lookupStr lookup key

/-- Modelled from the spec: `write(step_id, result)` fails with a
`DuplicateKeyError` when `step_id` is already present, and otherwise appends
the entry (entries are write-once per step identifier). -/
def OutputsLookup.write (lookup : OutputsLookup) (key : String) (result : Value) :
    Except Err OutputsLookup :=
  match OutputsLookup.read lookup key with
  | some _ => .error (.duplicateKey key)
  | Option.none => .ok (lookup ++ [(key, result)])

/-- Embedding of `resolve_parameter` (utils.py, lines 38-56): a non-selector
is returned unchanged; a step-output selector reads the producing step's
stored result and applies the field access, mapped over the elements when
the stored result is a list; any other selector is looked up in the runtime
parameters. -/
def resolve_parameter (selector_or_value : Value) (runtime_parameters : RuntimeParams)
    (outputs_lookup : OutputsLookup) : Except Err Value :=
  if is_selector selector_or_value = false then .ok selector_or_value
  else if is_step_output_selector selector_or_value = true then
    match selector_or_value with
    | .str s =>
        match OutputsLookup.read outputs_lookup (get_step_selector_from_its_output s) with
        | Option.none => .error (.missingKey (get_step_selector_from_its_output s))
        | some (.list elements) =>
            (mapGetField (get_last_selector_chunk s) elements).map Value.list
        | some step_output => step_output.getField (get_last_selector_chunk s)
    | _ => .error .typeError
  else
    match selector_or_value with
    | .str s =>
        match lookupStr runtime_parameters (get_last_selector_chunk s) with
        | some v => .ok v
        | Option.none => .error (.keyError (get_last_selector_chunk s))
    | _ => .error .typeError

/-- Embedding of `get_image` (utils.py, lines 20-35): an input selector is
looked up in the runtime parameters, a step-output selector is read from the
outputs lookup with a direct field access, and anything else raises
`RuntimeError("Cannot find image")`. -/
def get_image (image : Value) (runtime_parameters : RuntimeParams)
    (outputs_lookup : OutputsLookup) : Except Err Value :=
  if is_input_selector image = true then
    match image with
    | .str s =>
        match lookupStr runtime_parameters (get_last_selector_chunk s) with
        | some v => .ok v
        | Option.none => .error (.keyError (get_last_selector_chunk s))
    | _ => .error .typeError
  else if is_step_output_selector image = true then
    match image with
    | .str s =>
        match OutputsLookup.read outputs_lookup (get_step_selector_from_its_output s) with
        | some step_output => step_output.getField (get_last_selector_chunk s)
        | Option.none => .error (.missingKey (get_step_selector_from_its_output s))
    | _ => .error .typeError
  else .error (.runtimeError "Cannot find image")

/-- Modelled from the spec: the step entity of a Roboflow model step as the
executors access it — a type tag, a unique name, and the declared parameters
(each a literal or a selector).  The union of the fields read by the request
constructors in models.py. -/
structure RoboflowModel where
  type : String
  name : String
  image : Value
  model_id : Value
  confidence : Value
  disable_active_learning : Value
  class_agnostic_nms : Value
  class_filter : Value
  iou_threshold : Value
  max_detections : Value
  mask_decode_mode : Value
  tradeoff_factor : Value
  keypoint_confidence : Value

/-- Modelled from the spec: the step entity of an OCR step as the executor
accesses it. -/
structure OCRModel where
  type : String
  name : String
  image : Value

/-- The raw value returned by `model_manager.infer_from_request`: either a
single response object or a list of response objects (`ρ` is the response
type; `.dict()` serialisation is passed separately). -/
inductive RawResult (ρ : Type) where
  | single (response : ρ)
  | batch (responses : List ρ)

/-- A call issued to the model manager, recorded in execution order. -/
inductive ModelEvent where
  | addModel (model_id : Value) (api_key : Option String)
  | infer (model_id : Value) (request : Value)

/-- Python `None`-able API key as a runtime value. -/
def apiKeyValue : Option String → Value
  | some s => .str s
  | Option.none => .none

/-- Embedding of the result normalisation of `run_roboflow_model_step`
(models.py, lines 62-67): a list result is serialised per element, anything
else by one `.dict()` call; then a one-element list is unwrapped to its sole
element. -/
def serialise_roboflow_result {ρ : Type} (result : RawResult ρ) (dict : ρ → Value) : Value :=
  let serialised : Value :=
    match result with
    | .batch responses => .list (responses.map dict)
    | .single response => dict response
  match serialised with
  | .list l => if l.length = 1 then l.getD 0 (.list []) else .list l
  | v => v

/-- Embedding of `construct_classification_request` (models.py, lines
72-90): resolves the step parameters in keyword order and assembles the
request record. -/
def construct_classification_request (step : RoboflowModel) (image : Value)
    (api_key : Option String) (runtime_parameters : RuntimeParams)
    (outputs_lookup : OutputsLookup) : Except Err Value := do
  let model_id ← resolve_parameter step.model_id runtime_parameters outputs_lookup
  let confidence ← resolve_parameter step.confidence runtime_parameters outputs_lookup
  let dal ← resolve_parameter step.disable_active_learning runtime_parameters outputs_lookup
  .ok (.record [("api_key", apiKeyValue api_key), ("model_id", model_id), ("image", image),
    ("confidence", confidence), ("disable_active_learning", dal)])

/-- Embedding of `construct_object_detection_request` (models.py, lines
93-114). -/
def construct_object_detection_request (step : RoboflowModel) (image : Value)
    (api_key : Option String) (runtime_parameters : RuntimeParams)
    (outputs_lookup : OutputsLookup) : Except Err Value := do
  let model_id ← resolve_parameter step.model_id runtime_parameters outputs_lookup
  let cls_nms ← resolve_parameter step.class_agnostic_nms runtime_parameters outputs_lookup
  let cls_filter ← resolve_parameter step.class_filter runtime_parameters outputs_lookup
  let confidence ← resolve_parameter step.confidence runtime_parameters outputs_lookup
  let iou ← resolve_parameter step.iou_threshold runtime_parameters outputs_lookup
  let max_det ← resolve_parameter step.max_detections runtime_parameters outputs_lookup
  .ok (.record [("api_key", apiKeyValue api_key), ("model_id", model_id), ("image", image),
    ("class_agnostic_nms", cls_nms), ("class_filter", cls_filter), ("confidence", confidence),
    ("iou_threshold", iou), ("max_detections", max_det)])

/-- Embedding of `construct_instance_segmentation_request` (models.py, lines
117-140). -/
def construct_instance_segmentation_request (step : RoboflowModel) (image : Value)
    (api_key : Option String) (runtime_parameters : RuntimeParams)
    (outputs_lookup : OutputsLookup) : Except Err Value := do
  let model_id ← resolve_parameter step.model_id runtime_parameters outputs_lookup
  let cls_nms ← resolve_parameter step.class_agnostic_nms runtime_parameters outputs_lookup
  let cls_filter ← resolve_parameter step.class_filter runtime_parameters outputs_lookup
  let confidence ← resolve_parameter step.confidence runtime_parameters outputs_lookup
  let iou ← resolve_parameter step.iou_threshold runtime_parameters outputs_lookup
  let max_det ← resolve_parameter step.max_detections runtime_parameters outputs_lookup
  let mask_mode ← resolve_parameter step.mask_decode_mode runtime_parameters outputs_lookup
  let tradeoff ← resolve_parameter step.tradeoff_factor runtime_parameters outputs_lookup
  .ok (.record [("api_key", apiKeyValue api_key), ("model_id", model_id), ("image", image),
    ("class_agnostic_nms", cls_nms), ("class_filter", cls_filter), ("confidence", confidence),
    ("iou_threshold", iou), ("max_detections", max_det), ("mask_decode_mode", mask_mode),
    ("tradeoff_factor", tradeoff)])

/-- Embedding of `construct_keypoints_detection_request` (models.py, lines
143-165). -/
def construct_keypoints_detection_request (step : RoboflowModel) (image : Value)
    (api_key : Option String) (runtime_parameters : RuntimeParams)
    (outputs_lookup : OutputsLookup) : Except Err Value := do
  let model_id ← resolve_parameter step.model_id runtime_parameters outputs_lookup
  let cls_nms ← resolve_parameter step.class_agnostic_nms runtime_parameters outputs_lookup
  let cls_filter ← resolve_parameter step.class_filter runtime_parameters outputs_lookup
  let confidence ← resolve_parameter step.confidence runtime_parameters outputs_lookup
  let iou ← resolve_parameter step.iou_threshold runtime_parameters outputs_lookup
  let max_det ← resolve_parameter step.max_detections runtime_parameters outputs_lookup
  let kp_conf ← resolve_parameter step.keypoint_confidence runtime_parameters outputs_lookup
  .ok (.record [("api_key", apiKeyValue api_key), ("model_id", model_id), ("image", image),
    ("class_agnostic_nms", cls_nms), ("class_filter", cls_filter), ("confidence", confidence),
    ("iou_threshold", iou), ("max_detections", max_det), ("keypoint_confidence", kp_conf)])

/-- The type of a request constructor as stored in the dispatch table. -/
abbrev RequestConstructor : Type :=
  RoboflowModel → Value → Option String → RuntimeParams → OutputsLookup → Except Err Value

/-- Embedding of `MODEL_TYPE2REQUEST_CONSTRUCTOR` (models.py, lines
168-174): the type-tag to request-constructor dispatch table. -/
def MODEL_TYPE2REQUEST_CONSTRUCTOR : List (String × RequestConstructor) :=
  [("ClassificationModel", construct_classification_request),
   ("MultiLabelClassificationModel", construct_classification_request),
   ("ObjectDetectionModel", construct_object_detection_request),
   ("KeypointsDetectionModel", construct_keypoints_detection_request),
   ("InstanceSegmentationModel", construct_instance_segmentation_request)]

/-- Embedding of `run_roboflow_model_step` (models.py, lines 32-69).  The
model manager is an oracle `infer` from the resolved model id and the
constructed request to a raw result, serialised per response by `dict`; the
calls issued to the manager are returned as a trace alongside the outcome so
that partial execution before a failure stays observable. -/
def run_roboflow_model_step {ρ : Type} (step : RoboflowModel)
    (runtime_parameters : RuntimeParams) (outputs_lookup : OutputsLookup)
    (infer : Value → Value → RawResult ρ) (dict : ρ → Value) (api_key : Option String) :
    List ModelEvent × Except Err (Option String × OutputsLookup) :=
  match resolve_parameter step.model_id runtime_parameters outputs_lookup with
  | .error e => ([], .error e)
  | .ok model_id =>
    let events := [ModelEvent.addModel model_id api_key]
    match get_image step.image runtime_parameters outputs_lookup with
    | .error e => (events, .error e)
    | .ok image =>
      match lookupStr MODEL_TYPE2REQUEST_CONSTRUCTOR step.type with
      | Option.none => (events, .error (.keyError step.type))
      | some request_constructor =>
        match request_constructor step image api_key runtime_parameters outputs_lookup with
        | .error e => (events, .error e)
        | .ok request =>
          let events := events ++ [ModelEvent.infer model_id request]
          let serialised_result := serialise_roboflow_result (infer model_id request) dict
          match OutputsLookup.write outputs_lookup (construct_step_selector step.name)
              serialised_result with
          | .error e => (events, .error e)
          | .ok next_lookup => (events, .ok (Option.none, next_lookup))

/-- Embedding of the final unwrap of `run_ocr_model_step` (models.py, lines
206-207): a one-element accumulated result list collapses to its sole
element. -/
def unwrap_singleton (results : List Value) : Value :=
  if results.length = 1 then results.getD 0 (.list []) else .list results

/-- Embedding of `run_ocr_model_step` (models.py, lines 177-209).  The doctr
model is an oracle `infer` from a single image to a response, serialised by
`dict`; the loop iterates the (listified) image batch in order.  The trace
returned alongside the outcome is the list of images submitted to the model,
one `infer_from_request` call each, in execution order. -/
def run_ocr_model_step {ρ : Type} (step : OCRModel)
    (runtime_parameters : RuntimeParams) (outputs_lookup : OutputsLookup)
    (infer : Value → ρ) (dict : ρ → Value) :
    List Value × Except Err (Option String × OutputsLookup) :=
  match get_image step.image runtime_parameters outputs_lookup with
  | .error e => ([], .error e)
  | .ok image =>
    let images : List Value :=
      match image with
      | .list l => l
      | v => [v]
    let serialised_result := unwrap_singleton (images.map (fun i => dict (infer i)))
    match OutputsLookup.write outputs_lookup (construct_step_selector step.name)
        serialised_result with
    | .error e => (images, .error e)
    | .ok next_lookup => (images, .ok (Option.none, next_lookup))

/-- Embedding of a concrete manifest type deriving from
`WorkflowBlockManifest` (block.py, lines 21-62): a subclass may override
each dimensionality/batching classmethod; `Option.none` in a field means the
method is inherited from the base class. -/
structure WorkflowBlockManifestType where
  input_dimensionality_offsets_override : Option (List (String × Int))
  dimensionality_reference_property_override : Option (Option String)
  output_dimensionality_offset_override : Option Int
  accepts_batch_input_override : Option Bool
  accepts_empty_values_override : Option Bool

/-- Effective `get_input_dimensionality_offsets` of a manifest type: the
override when present, else the base-class body `return {}` (block.py,
lines 42-44). -/
def get_input_dimensionality_offsets (m : WorkflowBlockManifestType) : List (String × Int) :=
  m.input_dimensionality_offsets_override.getD []

/-- Effective `get_dimensionality_reference_property`: the override when
present, else the base-class body `return None` (block.py, lines 46-48). -/
def get_dimensionality_reference_property (m : WorkflowBlockManifestType) : Option String :=
  m.dimensionality_reference_property_override.getD Option.none

/-- Effective `get_output_dimensionality_offset`: the override when present,
else the base-class body `return 0` (block.py, lines 50-54). -/
def get_output_dimensionality_offset (m : WorkflowBlockManifestType) : Int :=
  m.output_dimensionality_offset_override.getD 0

/-- Effective `accepts_batch_input`: the override when present, else the
base-class body `return False` (block.py, lines 56-58). -/
def accepts_batch_input (m : WorkflowBlockManifestType) : Bool :=
  m.accepts_batch_input_override.getD false

/-- Effective `accepts_empty_values`: the override when present, else the
base-class body `return False` (block.py, lines 60-62). -/
def accepts_empty_values (m : WorkflowBlockManifestType) : Bool :=
  m.accepts_empty_values_override.getD false

/-- Python truthiness of the list check in models.py: is the value a list. -/
def Value.isList : Value → Bool
  | .list _ => true
  | _ => false

theorem charsStartWith_iff (cs p : List Char) : charsStartWith cs p = true ↔ p <+: cs := by
  induction p generalizing cs with
  | nil => cases cs <;> simp [charsStartWith]
  | cons a as ih =>
    cases cs with
    | nil => simp [charsStartWith]
    | cons c cs' =>
      simp only [charsStartWith]
      by_cases hc : c = a
      · subst hc
        simp [ih, List.cons_prefix_cons]
      · rw [if_neg hc]
        simp only [Bool.false_eq_true, false_iff, List.cons_prefix_cons, not_and]
        intro h1
        exact absurd h1.symm hc

theorem is_input_selector_shape {v : Value} (h : is_input_selector v = true) :
    ∃ s, v = .str s ∧ charsStartWith s.data INPUTS_TAG = true := by
  cases v
  case str s => exact ⟨s, rfl, h⟩
  all_goals simp [is_input_selector] at h

theorem is_step_output_selector_shape {v : Value} (h : is_step_output_selector v = true) :
    ∃ s, v = .str s ∧ charsStartWith s.data STEPS_TAG = true := by
  cases v
  case str s => exact ⟨s, rfl, h⟩
  all_goals simp [is_step_output_selector] at h

theorem charsStartWith_inputs_not_steps {cs : List Char}
    (h : charsStartWith cs INPUTS_TAG = true) : charsStartWith cs STEPS_TAG = false := by
  rw [charsStartWith_iff] at h
  obtain ⟨t, ht⟩ := h
  rw [← ht]
  simp [INPUTS_TAG, STEPS_TAG, charsStartWith]

theorem charsStartWith_steps_not_inputs {cs : List Char}
    (h : charsStartWith cs STEPS_TAG = true) : charsStartWith cs INPUTS_TAG = false := by
  rw [charsStartWith_iff] at h
  obtain ⟨t, ht⟩ := h
  rw [← ht]
  simp [INPUTS_TAG, STEPS_TAG, charsStartWith]

theorem is_selector_of_input {v : Value} (h : is_input_selector v = true) :
    is_selector v = true := by
  obtain ⟨s, rfl, hs⟩ := is_input_selector_shape h
  show charsStartWith s.data ['$'] = true
  rw [charsStartWith_iff] at hs ⊢
  exact List.IsPrefix.trans ⟨['i', 'n', 'p', 'u', 't', 's', '.'], rfl⟩ hs

theorem is_selector_of_step {v : Value} (h : is_step_output_selector v = true) :
    is_selector v = true := by
  obtain ⟨s, rfl, hs⟩ := is_step_output_selector_shape h
  show charsStartWith s.data ['$'] = true
  rw [charsStartWith_iff] at hs ⊢
  exact List.IsPrefix.trans ⟨['s', 't', 'e', 'p', 's', '.'], rfl⟩ hs

theorem input_selector_not_step {v : Value} (h : is_input_selector v = true) :
    is_step_output_selector v = false := by
  obtain ⟨s, rfl, hs⟩ := is_input_selector_shape h
  show charsStartWith s.data STEPS_TAG = false
  exact charsStartWith_inputs_not_steps hs

theorem step_selector_not_input {v : Value} (h : is_step_output_selector v = true) :
    is_input_selector v = false := by
  obtain ⟨s, rfl, hs⟩ := is_step_output_selector_shape h
  show charsStartWith s.data INPUTS_TAG = false
  exact charsStartWith_steps_not_inputs hs

theorem mapGetField_eq_map {field : String} {g : Value → Value} :
    ∀ {es : List Value}, (∀ e ∈ es, Value.getField e field = .ok (g e)) →
      mapGetField field es = .ok (es.map g) := by
  intro es
  induction es with
  | nil => intro _; rfl
  | cons a t ih =>
    intro h
    have ha := h a (List.mem_cons_self a t)
    have ht := ih (fun e he => h e (List.mem_cons_of_mem a he))
    simp only [mapGetField, ha, ht]
    rfl

theorem read_append_single (ol : OutputsLookup) (key k : String) (v : Value)
    (hk : k ≠ key) : OutputsLookup.read (ol ++ [(key, v)]) k = OutputsLookup.read ol k := by
  induction ol with
  | nil =>
    show lookupStr [(key, v)] k = lookupStr [] k
    have hne : ¬ key = k := fun h => hk h.symm
    simp [lookupStr, hne]
  | cons p rest ih =>
    show lookupStr ((p :: rest) ++ [(key, v)]) k = lookupStr (p :: rest) k
    simp only [List.cons_append, lookupStr]
    by_cases hp : p.1 = k
    · simp [hp]
    · simp only [if_neg hp]
      exact ih

theorem write_ok_inv {ol nl : OutputsLookup} {key : String} {res : Value}
    (h : OutputsLookup.write ol key res = .ok nl) :
    nl = ol ++ [(key, res)] ∧ OutputsLookup.read ol key = Option.none := by
  unfold OutputsLookup.write at h
  cases hr : OutputsLookup.read ol key with
  | none =>
    rw [hr] at h
    simp only [Except.ok.injEq] at h
    exact ⟨h.symm, rfl⟩
  | some w =>
    rw [hr] at h
    simp at h

example : get_last_selector_chunk "$inputs.image" = "image" := by decide

example : get_step_selector_from_its_output "$steps.detection.predictions" = "$steps.detection" := by
  decide

example : construct_step_selector "detection" = "$steps.detection" := by decide

example : is_step_output_selector (.str "$steps.detection.predictions") = true := by decide

example :
    resolve_parameter (.str "$inputs.confidence") [("confidence", .int 3)] [] =
      .ok (.int 3) := rfl

example :
    resolve_parameter (.str "$steps.a.f")
      [] [("$steps.a", .record [("f", .int 7)])] = .ok (.int 7) := rfl

example :
    resolve_parameter (.str "$steps.a.f")
      [] [("$steps.a", .list [.record [("f", .int 7)], .record [("f", .int 9)]])] =
      .ok (.list [.int 7, .int 9]) := rfl

/-- C1: For a step-output selector with an explicit field, `resolve_parameter`
applies the batch-broadcast rule: when the producing step's stored result is a
list of records, the resolved value is the same-length, order-preserving map
of the field access over the elements; when the stored result is a single
record, the resolved value is the direct field access on that record. -/
theorem resolve_parameter_broadcasts_field_access
    (s : String) (rp : RuntimeParams) (ol : OutputsLookup)
    (h_sel : is_step_output_selector (.str s) = true) :
    (∀ (elements : List Value) (g : Value → Value),
        OutputsLookup.read ol (get_step_selector_from_its_output s) = some (.list elements) →
        (∀ e ∈ elements, Value.getField e (get_last_selector_chunk s) = .ok (g e)) →
        resolve_parameter (.str s) rp ol = .ok (.list (elements.map g)) ∧
          (elements.map g).length = elements.length)
    ∧ (∀ (fields : List (String × Value)),
        OutputsLookup.read ol (get_step_selector_from_its_output s) = some (.record fields) →
        resolve_parameter (.str s) rp ol =
          Value.getField (.record fields) (get_last_selector_chunk s)) := by
  have h_issel : is_selector (.str s) = true := is_selector_of_step h_sel
  constructor
  · intro elements g hread hfields
    refine ⟨?_, by simp⟩
    simp [resolve_parameter, h_issel, h_sel, hread, mapGetField_eq_map hfields, Except.map]
  · intro fields hread
    simp [resolve_parameter, h_issel, h_sel, hread]

/-- Witness for C1: a two-element stored batch broadcasts the field access in
order, and a single stored record resolves to the direct field access. -/
theorem resolve_parameter_broadcasts_field_access_witness :
    resolve_parameter (.str "$steps.a.f") []
        [("$steps.a", .list [.record [("f", .int 1)], .record [("f", .int 2)]])] =
      .ok (.list [.int 1, .int 2]) ∧
    resolve_parameter (.str "$steps.a.f") [] [("$steps.a", .record [("f", .int 7)])] =
      Value.getField (.record [("f", .int 7)]) (get_last_selector_chunk "$steps.a.f") := by
  constructor
  · exact ((resolve_parameter_broadcasts_field_access "$steps.a.f" []
      [("$steps.a", .list [.record [("f", .int 1)], .record [("f", .int 2)]])]
      (by decide)).1 [.record [("f", .int 1)], .record [("f", .int 2)]]
      (fun e => (Value.getField e "f").toOption.getD .none) rfl
      (by intro e he; simp [List.mem_cons] at he; rcases he with rfl | rfl <;> rfl)).1
  · exact (resolve_parameter_broadcasts_field_access "$steps.a.f" []
      [("$steps.a", .record [("f", .int 7)])] (by decide)).2 [("f", .int 7)] rfl

/-- C2: `resolve_parameter` is an identity on non-references: a non-selector
value is returned unchanged (hence repeated calls with the same inputs and
lookup return the same value), and an input selector bound in the runtime
inputs resolves to exactly the bound value, unchanged. -/
theorem resolve_parameter_identity (v : Value) (s : String) (w : Value)
    (rp : RuntimeParams) (ol : OutputsLookup) :
    (is_selector v = false → resolve_parameter v rp ol = .ok v)
    ∧ (is_input_selector (.str s) = true →
        lookupStr rp (get_last_selector_chunk s) = some w →
        resolve_parameter (.str s) rp ol = .ok w) := by
  constructor
  · intro h
    simp [resolve_parameter, h]
  · intro h1 h2
    have hsel := is_selector_of_input h1
    have hstep := input_selector_not_step h1
    simp [resolve_parameter, hsel, hstep, h2]

/-- Witness for C2: a literal integer resolves to itself and a bound input
selector resolves to the supplied runtime value. -/
theorem resolve_parameter_identity_witness :
    resolve_parameter (.int 5) [("x", .int 9)] [] = .ok (.int 5) ∧
    resolve_parameter (.str "$inputs.x") [("x", .int 9)] [] = .ok (.int 9) :=
  ⟨(resolve_parameter_identity (.int 5) "$inputs.x" (.int 9) [("x", .int 9)] []).1 rfl,
   (resolve_parameter_identity (.int 5) "$inputs.x" (.int 9) [("x", .int 9)] []).2
     (by decide) rfl⟩

/-- C4: writing a result under a step identifier already present in the
outputs lookup always fails with a `DuplicateKeyError`; entries are
write-once per step identifier within a run. -/
theorem outputs_lookup_write_once (ol : OutputsLookup) (key : String)
    (prev fresh : Value) (h : OutputsLookup.read ol key = some prev) :
    OutputsLookup.write ol key fresh = .error (.duplicateKey key) := by
  simp [OutputsLookup.write, h]

/-- Witness for C4: re-writing the key of an already-recorded step fails. -/
theorem outputs_lookup_write_once_witness :
    OutputsLookup.write [("$steps.a", .int 1)] "$steps.a" (.int 2) =
      .error (.duplicateKey "$steps.a") :=
  outputs_lookup_write_once [("$steps.a", .int 1)] "$steps.a" (.int 1) (.int 2) rfl

/-- C6: resolving a step-output selector whose producing step is absent from
the outputs lookup fails — in `resolve_parameter` and in `get_image` alike —
with an error naming the absent step's selector, and never succeeds. -/
theorem resolve_absent_step_fails (s : String) (rp : RuntimeParams) (ol : OutputsLookup)
    (h_sel : is_step_output_selector (.str s) = true)
    (h_absent : OutputsLookup.read ol (get_step_selector_from_its_output s) = Option.none) :
    resolve_parameter (.str s) rp ol =
        .error (.missingKey (get_step_selector_from_its_output s)) ∧
    get_image (.str s) rp ol = .error (.missingKey (get_step_selector_from_its_output s)) ∧
    ∀ w, resolve_parameter (.str s) rp ol ≠ .ok w := by
  have hsel := is_selector_of_step h_sel
  have hinp := step_selector_not_input h_sel
  have h1 : resolve_parameter (.str s) rp ol =
      .error (.missingKey (get_step_selector_from_its_output s)) := by
    simp [resolve_parameter, hsel, h_sel, h_absent]
  refine ⟨h1, ?_, ?_⟩
  · simp [get_image, hinp, h_sel, h_absent]
  · intro w hw
    rw [h1] at hw
    exact Except.noConfusion hw

/-- Witness for C6: `$steps.unknown.field` with an empty outputs lookup fails
naming `$steps.unknown`. -/
theorem resolve_absent_step_fails_witness :
    resolve_parameter (.str "$steps.unknown.field") [] [] =
        .error (.missingKey (get_step_selector_from_its_output "$steps.unknown.field")) ∧
    get_image (.str "$steps.unknown.field") [] [] =
        .error (.missingKey (get_step_selector_from_its_output "$steps.unknown.field")) ∧
    ∀ w, resolve_parameter (.str "$steps.unknown.field") [] [] ≠ .ok w :=
  resolve_absent_step_fails "$steps.unknown.field" [] [] (by decide) rfl

/-- C8: a manifest type that overrides none of the dimensionality/batching
classmethods takes the declared base-class defaults: empty per-parameter
offset map, no dimensionality-reference parameter, output dimensionality
offset 0, no batched-input acceptance, no empty-value acceptance. -/
theorem manifest_metadata_defaults (m : WorkflowBlockManifestType)
    (h1 : m.input_dimensionality_offsets_override = Option.none)
    (h2 : m.dimensionality_reference_property_override = Option.none)
    (h3 : m.output_dimensionality_offset_override = Option.none)
    (h4 : m.accepts_batch_input_override = Option.none)
    (h5 : m.accepts_empty_values_override = Option.none) :
    get_input_dimensionality_offsets m = [] ∧
    get_dimensionality_reference_property m = Option.none ∧
    get_output_dimensionality_offset m = 0 ∧
    accepts_batch_input m = false ∧
    accepts_empty_values m = false := by
  simp [get_input_dimensionality_offsets, get_dimensionality_reference_property,
    get_output_dimensionality_offset, accepts_batch_input, accepts_empty_values,
    h1, h2, h3, h4, h5]

/-- Witness for C8: the manifest type with no overrides. -/
theorem manifest_metadata_defaults_witness :
    get_input_dimensionality_offsets
        ⟨Option.none, Option.none, Option.none, Option.none, Option.none⟩ = [] ∧
    get_dimensionality_reference_property
        ⟨Option.none, Option.none, Option.none, Option.none, Option.none⟩ = Option.none ∧
    get_output_dimensionality_offset
        ⟨Option.none, Option.none, Option.none, Option.none, Option.none⟩ = 0 ∧
    accepts_batch_input
        ⟨Option.none, Option.none, Option.none, Option.none, Option.none⟩ = false ∧
    accepts_empty_values
        ⟨Option.none, Option.none, Option.none, Option.none, Option.none⟩ = false :=
  manifest_metadata_defaults ⟨Option.none, Option.none, Option.none, Option.none, Option.none⟩
    rfl rfl rfl rfl rfl

/-- C9: an image parameter that is neither an input selector nor a
step-output selector makes `get_image` raise `RuntimeError("Cannot find
image")`, while `resolve_parameter` would return such a literal unchanged —
image parameters, unlike general parameters, are never accepted as
literals. -/
theorem get_image_rejects_literal (v : Value) (rp : RuntimeParams) (ol : OutputsLookup)
    (h1 : is_input_selector v = false) (h2 : is_step_output_selector v = false) :
    get_image v rp ol = .error (.runtimeError "Cannot find image") ∧
    (is_selector v = false → resolve_parameter v rp ol = .ok v) := by
  constructor
  · simp [get_image, h1, h2]
  · intro h
    simp [resolve_parameter, h]

/-- Witness for C9: a literal record (an inlined image payload) is rejected
by `get_image` though `resolve_parameter` would pass it through. -/
theorem get_image_rejects_literal_witness :
    get_image (.record [("type", .str "url")]) [] [] =
      .error (.runtimeError "Cannot find image") ∧
    resolve_parameter (.record [("type", .str "url")]) [] [] =
      .ok (.record [("type", .str "url")]) :=
  ⟨(get_image_rejects_literal (.record [("type", .str "url")]) [] [] rfl rfl).1,
   (get_image_rejects_literal (.record [("type", .str "url")]) [] [] rfl rfl).2 rfl⟩

/-- C3: the result normalisation shared by the model executors: a raw
sequence result is serialised per element, with a one-element sequence
unwrapped to the bare record and a two-or-more-element sequence preserved
as-is, while a non-sequence result is stored as the single serialised
record — for the Roboflow executor's normalisation and for the OCR
executor's per-image result list alike. -/
theorem serialised_result_normalisation {ρ : Type} (dict : ρ → Value) (response : ρ)
    (responses : List ρ) (result : Value) (results : List Value) :
    serialise_roboflow_result (.batch [response]) dict = dict response ∧
    (2 ≤ responses.length →
      serialise_roboflow_result (.batch responses) dict = .list (responses.map dict)) ∧
    ((dict response).isList = false →
      serialise_roboflow_result (.single response) dict = dict response) ∧
    unwrap_singleton [result] = result ∧
    (2 ≤ results.length → unwrap_singleton results = .list results) := by
  refine ⟨?_, ?_, ?_, ?_, ?_⟩
  · simp [serialise_roboflow_result]
  · intro h
    have hlen : ¬ responses.length = 1 := by omega
    simp [serialise_roboflow_result, hlen]
  · intro h
    cases hd : dict response <;> simp [serialise_roboflow_result, hd]
    simp [Value.isList, hd] at h
  · simp [unwrap_singleton]
  · intro h
    have hlen : ¬ results.length = 1 := by omega
    simp [unwrap_singleton, hlen]

/-- Witness for C3: one-element batches unwrap, two-element batches stay
sequences in order, a bare record stays a bare record. -/
theorem serialised_result_normalisation_witness :
    serialise_roboflow_result (.batch [Value.int 1]) (fun v => v) = .int 1 ∧
    serialise_roboflow_result (.batch [Value.int 1, Value.int 2]) (fun v => v) =
      .list [.int 1, .int 2] ∧
    serialise_roboflow_result (.single (Value.record [("r", .int 3)])) (fun v => v) =
      .record [("r", .int 3)] ∧
    unwrap_singleton [Value.int 7] = .int 7 ∧
    unwrap_singleton [Value.int 7, Value.int 8] = .list [.int 7, .int 8] := by
  have hA := serialised_result_normalisation (fun v : Value => v) (Value.int 1)
    [Value.int 1, Value.int 2] (Value.int 7) [Value.int 7, Value.int 8]
  have hB := serialised_result_normalisation (fun v : Value => v)
    (Value.record [("r", .int 3)]) [] (Value.int 0) []
  exact ⟨hA.1, hA.2.1 (by decide), hB.2.2.1 rfl, hA.2.2.2.1, hA.2.2.2.2 (by decide)⟩

/-- C5 counterexample: a Roboflow step whose type tag `"UnknownModel"` is
absent from the dispatch table does not fail before execution: its
invocation runs, registers the resolved model with the model manager, and
only then surfaces the dispatch miss as a `KeyError` — the failure happens
at invocation time, with a non-empty model-manager trace already issued. -/
theorem dispatch_miss_at_invocation_counterexample :
    run_roboflow_model_step
        ⟨"UnknownModel", "det", .str "$inputs.image", .str "proj/1", .none, .none, .none,
          .none, .none, .none, .none, .none, .none⟩
        [("image", .str "img")] [] (fun _ _ => RawResult.single Value.none)
        (fun v => v) Option.none =
      ([ModelEvent.addModel (.str "proj/1") Option.none],
        .error (.keyError "UnknownModel")) ∧
    [ModelEvent.addModel (.str "proj/1") Option.none] ≠ ([] : List ModelEvent) :=
  ⟨rfl, List.cons_ne_nil _ _⟩

/-- C5 amended: a step whose type tag is not in the request-constructor
dispatch table fails with a `KeyError` naming the tag at invocation time:
`run_roboflow_model_step` first registers the resolved model and resolves
the image, then surfaces the dispatch-table miss, issuing no inference
call. -/
theorem dispatch_miss_fails_at_invocation {ρ : Type} (step : RoboflowModel)
    (rp : RuntimeParams) (ol : OutputsLookup) (infer : Value → Value → RawResult ρ)
    (dict : ρ → Value) (api_key : Option String) (mid img : Value)
    (h_tab : lookupStr MODEL_TYPE2REQUEST_CONSTRUCTOR step.type = Option.none)
    (h_mid : resolve_parameter step.model_id rp ol = .ok mid)
    (h_img : get_image step.image rp ol = .ok img) :
    run_roboflow_model_step step rp ol infer dict api_key =
      ([ModelEvent.addModel mid api_key], .error (.keyError step.type)) := by
  simp [run_roboflow_model_step, h_mid, h_img, h_tab]

/-- Witness for C5's amended statement at a concrete unknown-typed step. -/
theorem dispatch_miss_fails_at_invocation_witness :
    run_roboflow_model_step
        ⟨"UnknownModel", "det2", .str "$inputs.image", .str "proj/1", .none, .none, .none,
          .none, .none, .none, .none, .none, .none⟩
        [("image", .str "img")] [] (fun _ _ => RawResult.single Value.none)
        (fun v => v) Option.none =
      ([ModelEvent.addModel (.str "proj/1") Option.none],
        .error (.keyError "UnknownModel")) :=
  dispatch_miss_fails_at_invocation
    ⟨"UnknownModel", "det2", .str "$inputs.image", .str "proj/1", .none, .none, .none,
      .none, .none, .none, .none, .none, .none⟩
    [("image", .str "img")] [] (fun _ _ => RawResult.single Value.none)
    (fun v => v) Option.none (.str "proj/1") (.str "img") rfl rfl rfl

/-- C7: for an OCR step whose resolved image parameter is a list of N ≥ 2
images, `run_ocr_model_step` submits exactly one inference request per image
— the returned request trace is the input batch itself, in input order — and
stores the N per-image serialised results as a sequence in input order; a
non-list image is treated as a one-element batch. -/
theorem run_ocr_iterates_batch {ρ : Type} (step : OCRModel) (rp : RuntimeParams)
    (ol : OutputsLookup) (infer : Value → ρ) (dict : ρ → Value)
    (imgs : List Value) (v : Value) :
    (get_image step.image rp ol = .ok (.list imgs) → 2 ≤ imgs.length →
      OutputsLookup.read ol (construct_step_selector step.name) = Option.none →
      run_ocr_model_step step rp ol infer dict =
        (imgs, .ok (Option.none,
          ol ++ [(construct_step_selector step.name,
            .list (imgs.map (fun i => dict (infer i))))])))
    ∧ (get_image step.image rp ol = .ok v → v.isList = false →
      OutputsLookup.read ol (construct_step_selector step.name) = Option.none →
      run_ocr_model_step step rp ol infer dict =
        ([v], .ok (Option.none,
          ol ++ [(construct_step_selector step.name, dict (infer v))]))) := by
  constructor
  · intro h1 h2 h3
    have hlen : ¬ imgs.length = 1 := by omega
    simp [run_ocr_model_step, h1, unwrap_singleton, hlen, OutputsLookup.write, h3]
  · intro h1 h2 h3
    cases v <;> simp [Value.isList] at h2 <;>
      simp [run_ocr_model_step, h1, unwrap_singleton, OutputsLookup.write, h3]

/-- Witness for C7: a two-image batch is inferred once per image in order
and stored as a two-element sequence; a bare image becomes a one-element
batch stored unwrapped. -/
theorem run_ocr_iterates_batch_witness :
    run_ocr_model_step ⟨"OCRModel", "ocr", .str "$inputs.image"⟩
        [("image", .list [.str "i1", .str "i2"])] [] (fun v => v)
        (fun v => Value.record [("result", v)]) =
      ([.str "i1", .str "i2"], .ok (Option.none,
        ([] : OutputsLookup) ++ [(construct_step_selector "ocr",
          .list [.record [("result", .str "i1")], .record [("result", .str "i2")]])])) ∧
    run_ocr_model_step ⟨"OCRModel", "ocr", .str "$inputs.image"⟩
        [("image", .str "solo")] [] (fun v => v)
        (fun v => Value.record [("result", v)]) =
      ([.str "solo"], .ok (Option.none,
        ([] : OutputsLookup) ++ [(construct_step_selector "ocr",
          .record [("result", .str "solo")])])) :=
  ⟨(run_ocr_iterates_batch ⟨"OCRModel", "ocr", .str "$inputs.image"⟩
      [("image", .list [.str "i1", .str "i2"])] [] (fun v => v)
      (fun v => Value.record [("result", v)]) [.str "i1", .str "i2"] .none).1
      rfl (by decide) rfl,
   (run_ocr_iterates_batch ⟨"OCRModel", "ocr", .str "$inputs.image"⟩
      [("image", .str "solo")] [] (fun v => v)
      (fun v => Value.record [("result", v)]) [] (.str "solo")).2 rfl rfl rfl⟩

/-- C10: every successful execution of `run_roboflow_model_step` or
`run_ocr_model_step` returns no next-step reference and an outputs lookup
extending the previous one by exactly one entry, keyed by the selector
constructed from the step's own name, with every pre-existing entry read
unchanged. -/
theorem model_steps_write_single_entry {ρ σ : Type} (step : RoboflowModel)
    (ostep : OCRModel) (rp : RuntimeParams) (ol : OutputsLookup)
    (infer : Value → Value → RawResult ρ) (dict : ρ → Value)
    (oinfer : Value → σ) (odict : σ → Value) (api_key : Option String) :
    (∀ events ref ol2, run_roboflow_model_step step rp ol infer dict api_key =
        (events, .ok (ref, ol2)) →
      ref = Option.none ∧
        ∃ res, ol2 = ol ++ [(construct_step_selector step.name, res)] ∧
          ∀ k, k ≠ construct_step_selector step.name →
            OutputsLookup.read ol2 k = OutputsLookup.read ol k)
    ∧ (∀ images ref ol2, run_ocr_model_step ostep rp ol oinfer odict =
        (images, .ok (ref, ol2)) →
      ref = Option.none ∧
        ∃ res, ol2 = ol ++ [(construct_step_selector ostep.name, res)] ∧
          ∀ k, k ≠ construct_step_selector ostep.name →
            OutputsLookup.read ol2 k = OutputsLookup.read ol k) := by
  constructor
  · intro events ref ol2 h
    simp only [run_roboflow_model_step] at h
    cases hmid : resolve_parameter step.model_id rp ol with
    | error e => simp only [hmid] at h; simp at h
    | ok mid =>
      simp only [hmid] at h
      cases himg : get_image step.image rp ol with
      | error e => simp only [himg] at h; simp at h
      | ok img =>
        simp only [himg] at h
        cases htab : lookupStr MODEL_TYPE2REQUEST_CONSTRUCTOR step.type with
        | none => simp only [htab] at h; simp at h
        | some ctor =>
          simp only [htab] at h
          cases hreq : ctor step img api_key rp ol with
          | error e => simp only [hreq] at h; simp at h
          | ok req =>
            simp only [hreq] at h
            cases hw : OutputsLookup.write ol (construct_step_selector step.name)
                (serialise_roboflow_result (infer mid req) dict) with
            | error e => simp only [hw] at h; simp at h
            | ok nl =>
              simp only [hw, Prod.mk.injEq, Except.ok.injEq] at h
              obtain ⟨-, href, hol⟩ := h
              obtain ⟨hnl, -⟩ := write_ok_inv hw
              subst hnl
              refine ⟨href.symm, serialise_roboflow_result (infer mid req) dict,
                hol.symm, ?_⟩
              intro k hk
              rw [← hol]
              exact read_append_single ol (construct_step_selector step.name) k _ hk
  · intro images ref ol2 h
    simp only [run_ocr_model_step] at h
    cases himg : get_image ostep.image rp ol with
    | error e => simp only [himg] at h; simp at h
    | ok image =>
      simp only [himg] at h
      cases hw : OutputsLookup.write ol (construct_step_selector ostep.name)
          (unwrap_singleton ((match image with
            | .list l => l
            | v => [v]).map (fun i => odict (oinfer i)))) with
      | error e => simp only [hw] at h; simp at h
      | ok nl =>
        simp only [hw, Prod.mk.injEq, Except.ok.injEq] at h
        obtain ⟨-, href, hol⟩ := h
        obtain ⟨hnl, -⟩ := write_ok_inv hw
        subst hnl
        refine ⟨href.symm, _, hol.symm, ?_⟩
        intro k hk
        rw [← hol]
        exact read_append_single ol (construct_step_selector ostep.name) k _ hk

/-- Witness for C10: one successful Roboflow detection run and one
successful OCR run, each adding its single keyed entry to an empty
lookup. -/
theorem model_steps_write_single_entry_witness :
    ((Option.none : Option String) = Option.none ∧
      ∃ res, [("$steps.det", Value.record [("predictions", Value.list [])])] =
          ([] : OutputsLookup) ++ [(construct_step_selector "det", res)] ∧
        ∀ k, k ≠ construct_step_selector "det" →
          OutputsLookup.read
              [("$steps.det", Value.record [("predictions", Value.list [])])] k =
            OutputsLookup.read [] k) ∧
    ((Option.none : Option String) = Option.none ∧
      ∃ res, [("$steps.ocr", Value.record [("result", Value.str "img")])] =
          ([] : OutputsLookup) ++ [(construct_step_selector "ocr", res)] ∧
        ∀ k, k ≠ construct_step_selector "ocr" →
          OutputsLookup.read [("$steps.ocr", Value.record [("result", Value.str "img")])] k =
            OutputsLookup.read [] k) := by
  have h := model_steps_write_single_entry
    ⟨"ObjectDetectionModel", "det", .str "$inputs.image", .str "m/1", .none, .none, .none,
      .none, .none, .none, .none, .none, .none⟩
    ⟨"OCRModel", "ocr", .str "$inputs.image"⟩
    [("image", .str "img")] []
    (fun _ _ => RawResult.single (Value.record [("predictions", Value.list [])]))
    (fun v => v) (fun v => v) (fun v => Value.record [("result", v)]) Option.none
  exact ⟨h.1 [ModelEvent.addModel (.str "m/1") Option.none,
      ModelEvent.infer (.str "m/1") (.record [("api_key", .none), ("model_id", .str "m/1"),
        ("image", .str "img"), ("class_agnostic_nms", .none), ("class_filter", .none),
        ("confidence", .none), ("iou_threshold", .none), ("max_detections", .none)])]
      Option.none [("$steps.det", Value.record [("predictions", Value.list [])])] rfl,
    h.2 [.str "img"] Option.none
      [("$steps.ocr", Value.record [("result", Value.str "img")])] rfl⟩

end Inference
